import Mathlib

/-!
Shallow embedding of the adapter registry, operation dispatcher and event
ingestion pipeline from `server/handlers/mesh_ops_handlers.go` (package
`handlers`) and the meshsync resolver part of the same source file (package
`resolver`).  External collaborators (the gRPC mesh client, the Kubernetes
context credential generator, the database handler) are modelled as
environments recording the outcome each external call would produce, and the
handlers additionally return a trace of the external calls they issued.
-/

namespace Meshery

/-- Model of `models.Adapter` as used by the handlers: `Host` is the identity
key, `Port` the locally allocated port (the allocator itself,
`models.GetNextAvailablePort`, is outside the handler source and is modelled
as a counter handed to `addAdapter`). -/
structure Adapter where
  Host : String
  Name : String
  Version : String
  GitCommitSHA : String
  Ops : List String
  Port : Nat
  Available : Bool
deriving Repr, DecidableEq

/-- Result of the `ComponentInfo` capability RPC (`meshInfo` in `addAdapter`). -/
structure ComponentInfoRes where
  Name : String
  Version : String
  GitSha : String
deriving Repr, DecidableEq

/-- One external RPC issued during registration: opening the client connection
(`meshes.CreateClient`) or one of the two capability RPCs. -/
inductive RpcCall where
  | createClient (host : String)
  | supportedOperations
  | componentInfo
deriving Repr, DecidableEq

/-- Errors `addAdapter` can return: `ErrMeshClient` when `meshes.CreateClient`
fails, or the verbatim error of a capability RPC. -/
inductive AddError where
  | errMeshClient
  | rpcError (e : String)
deriving Repr, DecidableEq

/-- Environment for `addAdapter`: the outcome each external call would have if
issued (the remote adapter is an external collaborator). -/
structure AddEnv where
  createClient : Except String Unit
  supportedOps : Except String (List String)
  componentInfo : Except String ComponentInfoRes

/-- Observable outcome of `addAdapter`: the returned adapter list and error,
plus the trace of RPCs issued, the ports allocated, and the allocator state
after the call. -/
structure AddResult where
  adapters : List Adapter
  err : Option AddError
  rpcs : List RpcCall
  allocatedPorts : List Nat
  nextPort : Nat
deriving Repr, DecidableEq

/-- Embedding of `Handler.addAdapter`: scan for an entry with the same `Host`
(the `alreadyConfigured` loop); if found return the list unchanged with a nil
error; otherwise create the client, fetch supported operations and component
info (each failure returns the input list and an error), then build the new
adapter with a freshly allocated port, `Available = true`, and append it. -/
def addAdapter (env : AddEnv) (nextPort : Nat) (meshAdapters : List Adapter)
    (meshLocationURL : String) : AddResult :=
  if meshAdapters.any (fun adapter => adapter.Host == meshLocationURL) then
    { adapters := meshAdapters, err := none, rpcs := [], allocatedPorts := [],
      nextPort := nextPort }
  else
    match env.createClient with
    | Except.error _ =>
      { adapters := meshAdapters, err := some AddError.errMeshClient,
        rpcs := [RpcCall.createClient meshLocationURL], allocatedPorts := [],
        nextPort := nextPort }
    | Except.ok _ =>
      match env.supportedOps with
      | Except.error e =>
        { adapters := meshAdapters, err := some (AddError.rpcError e),
          rpcs := [RpcCall.createClient meshLocationURL, RpcCall.supportedOperations],
          allocatedPorts := [], nextPort := nextPort }
      | Except.ok ops =>
        match env.componentInfo with
        | Except.error e =>
          { adapters := meshAdapters, err := some (AddError.rpcError e),
            rpcs := [RpcCall.createClient meshLocationURL, RpcCall.supportedOperations,
                     RpcCall.componentInfo],
            allocatedPorts := [], nextPort := nextPort }
        | Except.ok info =>
          let adapter : Adapter :=
            { Host := meshLocationURL, Name := info.Name, Version := info.Version,
              GitCommitSHA := info.GitSha, Ops := ops, Port := nextPort,
              Available := true }
          { adapters := meshAdapters ++ [adapter], err := none,
            rpcs := [RpcCall.createClient meshLocationURL, RpcCall.supportedOperations,
                     RpcCall.componentInfo],
            allocatedPorts := [nextPort], nextPort := nextPort + 1 }

/-- The error `deleteAdapter` (and adapter resolution in the other handlers)
reports for an unknown adapter: `ErrValidAdapter`. -/
inductive DeleteError where
  | errValidAdapter
deriving Repr, DecidableEq

/-- The index-search loop of `Handler.deleteAdapter`: first index `i` with
`adapterLoc == meshAdapters[i].Host`, or `none` (`aID = -1` in the source). -/
def findAdapterIdx (adapterLoc : String) : List Adapter → Option Nat
  | [] => none
  | ad :: rest =>
    if adapterLoc == ad.Host then some 0
    else (findAdapterIdx adapterLoc rest).map (fun i => i + 1)

/-- Embedding of `Handler.deleteAdapter`: find the first entry whose `Host`
equals the query; if none, return the input list and `ErrValidAdapter`;
otherwise drop that entry using the three slice cases of the source
(`[1:]`, `[:len-1]`, `append([:aID], [aID+1:]...)`). -/
def deleteAdapter (meshAdapters : List Adapter) (adapterLoc : String) :
    List Adapter × Option DeleteError :=
  match findAdapterIdx adapterLoc meshAdapters with
  | none => (meshAdapters, some DeleteError.errValidAdapter)
  | some aID =>
    if aID = 0 then (meshAdapters.drop 1, none)
    else if aID = meshAdapters.length - 1 then
      (meshAdapters.take (meshAdapters.length - 1), none)
    else (meshAdapters.take aID ++ meshAdapters.drop (aID + 1), none)

theorem findAdapterIdx_eq_none_of (loc : String) :
    ∀ l : List Adapter, (∀ a ∈ l, a.Host ≠ loc) → findAdapterIdx loc l = none := by
  intro l
  induction l with
  | nil => intro _; rfl
  | cons hd tl ih =>
    intro h
    have hb : ¬((loc == hd.Host) = true) := by
      simp only [beq_iff_eq]
      intro he
      exact h hd (List.mem_cons_self hd tl) he.symm
    have htl : findAdapterIdx loc tl = none :=
      ih (fun a ha => h a (List.mem_cons_of_mem hd ha))
    simp [findAdapterIdx, hb, htl]

theorem findAdapterIdx_eq_some_of (loc : String) :
    ∀ (l : List Adapter) (i : Nat) (a : Adapter), l.get? i = some a → a.Host = loc →
      (∀ j, j < i → ∀ b, l.get? j = some b → b.Host ≠ loc) →
      findAdapterIdx loc l = some i := by
  intro l
  induction l with
  | nil => intro i a hget _ _; simp [List.get?] at hget
  | cons hd tl ih =>
    intro i a hget hhost hfirst
    cases i with
    | zero =>
      have ha : a = hd := by
        simpa [List.get?] using hget.symm
      subst ha
      simp [findAdapterIdx, beq_iff_eq, hhost.symm]
    | succ j =>
      have hb : ¬((loc == hd.Host) = true) := by
        simp only [beq_iff_eq]
        intro he
        exact hfirst 0 (Nat.succ_pos j) hd (by simp [List.get?]) he.symm
      have htl : findAdapterIdx loc tl = some j := by
        refine ih j a (by simpa [List.get?] using hget) hhost ?_
        intro k hk b hgetb
        exact hfirst (k + 1) (Nat.succ_lt_succ hk) b (by simpa [List.get?] using hgetb)
      simp [findAdapterIdx, hb, htl]

theorem findAdapterIdx_lt_length (loc : String) :
    ∀ (l : List Adapter) (i : Nat), findAdapterIdx loc l = some i → i < l.length := by
  intro l
  induction l with
  | nil => intro i h; simp [findAdapterIdx] at h
  | cons hd tl ih =>
    intro i h
    by_cases hb : (loc == hd.Host) = true
    · simp [findAdapterIdx, hb] at h
      subst h
      exact Nat.succ_pos _
    · simp [findAdapterIdx, hb] at h
      obtain ⟨j, hj, hji⟩ := h
      subst hji
      exact Nat.succ_lt_succ (ih j hj)

/-- C1: registering a host that already matches an existing entry is an
idempotent no-op: the returned list is the input list (with a nil error), no
RPC at all is issued (in particular neither `SupportedOperations` nor
`ComponentInfo`), no port is allocated, and the registry keeps exactly one
entry for that host when it had exactly one. -/
theorem addAdapter_duplicate_noop (env : AddEnv) (p : Nat) (l : List Adapter)
    (url : String) (h : l.any (fun a => a.Host == url) = true) :
    (addAdapter env p l url).adapters = l ∧
    (addAdapter env p l url).err = none ∧
    (addAdapter env p l url).rpcs = [] ∧
    (addAdapter env p l url).allocatedPorts = [] ∧
    ((l.filter (fun a => a.Host == url)).length = 1 →
      (((addAdapter env p l url).adapters.filter (fun a => a.Host == url)).length = 1)) := by
  simp [addAdapter, h]

/-- C1 witness: re-registering the host of an already-present adapter, with
every external call set to fail, still succeeds without issuing any call. -/
def sampleAdapterA : Adapter :=
  { Host := "http://istio:10000", Name := "meshery-istio", Version := "v1",
    GitCommitSHA := "aaa", Ops := ["install"], Port := 10000, Available := true }

/-- Adapter used as the middle element in the deletion witness. -/
def sampleAdapterB : Adapter :=
  { Host := "http://linkerd:10001", Name := "meshery-linkerd", Version := "v2",
    GitCommitSHA := "bbb", Ops := ["install"], Port := 10001, Available := true }

/-- Adapter used as the last element in the deletion witness. -/
def sampleAdapterC : Adapter :=
  { Host := "http://consul:10002", Name := "meshery-consul", Version := "v3",
    GitCommitSHA := "ccc", Ops := ["install"], Port := 10002, Available := true }

/-- Environment in which every external registration call fails. -/
def sampleEnvDead : AddEnv :=
  { createClient := Except.error "connection refused",
    supportedOps := Except.error "unreachable",
    componentInfo := Except.error "unreachable" }

theorem addAdapter_duplicate_noop_witness :
    (addAdapter sampleEnvDead 7 [sampleAdapterA] "http://istio:10000").adapters
        = [sampleAdapterA] ∧
    (addAdapter sampleEnvDead 7 [sampleAdapterA] "http://istio:10000").err = none ∧
    (addAdapter sampleEnvDead 7 [sampleAdapterA] "http://istio:10000").rpcs = [] ∧
    (addAdapter sampleEnvDead 7 [sampleAdapterA] "http://istio:10000").allocatedPorts = [] ∧
    (([sampleAdapterA].filter (fun a => a.Host == "http://istio:10000")).length = 1 →
      (((addAdapter sampleEnvDead 7 [sampleAdapterA] "http://istio:10000").adapters.filter
          (fun a => a.Host == "http://istio:10000")).length = 1)) :=
  addAdapter_duplicate_noop sampleEnvDead 7 [sampleAdapterA] "http://istio:10000" (by decide)

/-- C2: when the host is new and either opening the connection or one of the
two capability RPCs fails, registration returns an error, the returned list is
exactly the input list (no half-initialized entry appended), and no port is
allocated (the allocator state is untouched). -/
theorem addAdapter_failure_no_partial_state (env : AddEnv) (p : Nat)
    (l : List Adapter) (url : String)
    (hnew : l.any (fun a => a.Host == url) = false)
    (hfail : (∃ e, env.createClient = Except.error e) ∨
             (∃ e, env.supportedOps = Except.error e) ∨
             (∃ e, env.componentInfo = Except.error e)) :
    (addAdapter env p l url).adapters = l ∧
    (∃ er, (addAdapter env p l url).err = some er) ∧
    (addAdapter env p l url).allocatedPorts = [] ∧
    (addAdapter env p l url).nextPort = p := by
  cases hc : env.createClient with
  | error e1 => simp [addAdapter, hnew, hc]
  | ok u1 =>
    cases hs : env.supportedOps with
    | error e2 => simp [addAdapter, hnew, hc, hs]
    | ok ops =>
      cases hi : env.componentInfo with
      | error e3 => simp [addAdapter, hnew, hc, hs, hi]
      | ok info =>
        rcases hfail with ⟨e, he⟩ | ⟨e, he⟩ | ⟨e, he⟩
        · rw [hc] at he; cases he
        · rw [hs] at he; cases he
        · rw [hi] at he; cases he

theorem addAdapter_failure_no_partial_state_witness :
    (addAdapter sampleEnvDead 7 [sampleAdapterA] "http://new:9999").adapters
        = [sampleAdapterA] ∧
    (∃ er, (addAdapter sampleEnvDead 7 [sampleAdapterA] "http://new:9999").err = some er) ∧
    (addAdapter sampleEnvDead 7 [sampleAdapterA] "http://new:9999").allocatedPorts = [] ∧
    (addAdapter sampleEnvDead 7 [sampleAdapterA] "http://new:9999").nextPort = 7 :=
  addAdapter_failure_no_partial_state sampleEnvDead 7 [sampleAdapterA] "http://new:9999"
    (by decide) (Or.inl ⟨"connection refused", rfl⟩)

/-- C3: removing a host that matches no entry returns `ErrValidAdapter` and
the returned adapter list is exactly the input list. -/
theorem deleteAdapter_notFound (l : List Adapter) (loc : String)
    (h : ∀ a ∈ l, a.Host ≠ loc) :
    deleteAdapter l loc = (l, some DeleteError.errValidAdapter) := by
  simp [deleteAdapter, findAdapterIdx_eq_none_of loc l h]

theorem deleteAdapter_notFound_witness :
    deleteAdapter [sampleAdapterA, sampleAdapterB] "http://ghost:1"
      = ([sampleAdapterA, sampleAdapterB], some DeleteError.errValidAdapter) :=
  deleteAdapter_notFound [sampleAdapterA, sampleAdapterB] "http://ghost:1" (by decide)

/-- C4: when the first matching entry sits at position `i` (first, middle or
last), removal succeeds and the result is the input list with exactly that
entry deleted, all remaining entries keeping their relative order
(`take i ++ drop (i+1)`, position-stable deletion). -/
theorem deleteAdapter_position_stable (l : List Adapter) (loc : String) (i : Nat)
    (a : Adapter) (hget : l.get? i = some a) (hhost : a.Host = loc)
    (hfirst : ∀ j, j < i → ∀ b, l.get? j = some b → b.Host ≠ loc) :
    deleteAdapter l loc = (l.take i ++ l.drop (i + 1), none) := by
  have hidx : findAdapterIdx loc l = some i :=
    findAdapterIdx_eq_some_of loc l i a hget hhost hfirst
  have hlt : i < l.length := findAdapterIdx_lt_length loc l i hidx
  rw [deleteAdapter, hidx]
  by_cases h0 : i = 0
  · subst h0; simp
  · by_cases hlast : i = l.length - 1
    · simp only [if_neg h0, if_pos hlast]
      have hi1 : i + 1 = l.length := by omega
      rw [← hlast, hi1, List.drop_length, List.append_nil]
    · simp only [if_neg h0, if_neg hlast]

theorem deleteAdapter_position_stable_witness :
    deleteAdapter [sampleAdapterA, sampleAdapterB, sampleAdapterC] "http://linkerd:10001"
      = ([sampleAdapterA, sampleAdapterC], none) := by
  have h := deleteAdapter_position_stable
    [sampleAdapterA, sampleAdapterB, sampleAdapterC] "http://linkerd:10001" 1
    sampleAdapterB (by decide) (by decide)
    (by
      intro j hj b hgetb
      interval_cases j
      · simp [List.get?] at hgetb
        subst hgetb
        decide)
  simpa using h

/-- Dispatch lookup key of `MeshOpsHandler`: the adapter's `Host` combined
with its `Port` (the source formats the pair as host, separator, port via
`fmt.Sprintf`). -/
def dispatchKey (ad : Adapter) : String := ad.Host ++ ":" ++ toString ad.Port

/-- The adapter-resolution loop of `MeshOpsHandler`: the first entry whose
`Host` combined with `Port` equals the supplied form value (the source keeps
the index `aID` and then reads `meshAdapters[aID]`; returning the entry found
first is the same observable). -/
def findDispatchAdapter (adapterLoc : String) : List Adapter → Option Adapter
  | [] => none
  | ad :: rest =>
    if adapterLoc == dispatchKey ad then some ad
    else findDispatchAdapter adapterLoc rest

/-- The adapter-resolution loop of `AdapterPingHandler`: the first entry whose
`Host` alone equals the supplied query value. -/
def findTargetAdapter (adapterLoc : String) : List Adapter → Option Adapter
  | [] => none
  | ad :: rest =>
    if adapterLoc == ad.Host then some ad
    else findTargetAdapter adapterLoc rest

/-- The credential-assembly loop of `MeshOpsHandler`: for each cluster context
(modelled by the outcome its `GenerateKubeConfig` call would produce) collect
the serialized config, aborting with the first generation error encountered. -/
def generateKubeConfigs : List (Except String String) → Except String (List String)
  | [] => Except.ok []
  | c :: rest =>
    match c with
    | Except.error e => Except.error e
    | Except.ok kc =>
      match generateKubeConfigs rest with
      | Except.error e => Except.error e
      | Except.ok configs => Except.ok (kc :: configs)

/-- Model of `meshes.ApplyRuleRequest` as populated by `MeshOpsHandler`. -/
structure ApplyRuleRequest where
  OperationId : String
  OpName : String
  Username : String
  Namespace : String
  CustomBody : String
  DeleteOp : Bool
  KubeConfigs : List String
deriving Repr, DecidableEq

/-- Errors `MeshOpsHandler` can report: unknown adapter (`ErrValidAdapter`),
missing or empty cluster context list (`ErrInvalidK8SConfig`), a kube-config
generation error, a client-creation error, or the remote `ApplyOperation`
error, the last three surfaced verbatim. -/
inductive OpsError where
  | errValidAdapter
  | errInvalidK8SConfig
  | kubeConfigError (e : String)
  | meshClientError (e : String)
  | applyOperationError (e : String)
deriving Repr, DecidableEq

/-- The form values `MeshOpsHandler` reads from the request. -/
structure OpsForm where
  adapter : String
  query : String
  customBody : String
  Namespace : String
  deleteOp : String
deriving Repr, DecidableEq

/-- Environment for `MeshOpsHandler`: the cluster contexts found on the
request context (`none` models a failed type assertion), each carrying the
outcome of its `GenerateKubeConfig` call, plus the outcomes of
`meshes.CreateClient` and the remote `ApplyOperation`, and the freshly
generated operation identifier. -/
structure DispatchEnv where
  mk8sContexts : Option (List (Except String String))
  createClient : Except String Unit
  operationId : String
  applyResult : Except String Unit

/-- Observable outcome of `MeshOpsHandler`: the reported error (if any), the
hosts for which an RPC client was created, and the `ApplyOperation` requests
issued. -/
structure DispatchResult where
  err : Option OpsError
  clientCalls : List String
  applyCalls : List ApplyRuleRequest
deriving Repr, DecidableEq

/-- Embedding of `Handler.MeshOpsHandler`: resolve the adapter by exact match
of the form value against `Host` combined with `Port` (`ErrValidAdapter` if
none), default the namespace to "default", require a non-empty cluster context
list (`ErrInvalidK8SConfig` otherwise), generate all kube configs (aborting on
the first error), create the RPC client, and issue exactly one
`ApplyOperation` carrying the operation id, op name, user id, namespace,
custom body, the `deleteOp != ""` flag and the ordered configs. -/
def MeshOpsHandler (env : DispatchEnv) (meshAdapters : List Adapter)
    (form : OpsForm) (userID : String) : DispatchResult :=
  match findDispatchAdapter form.adapter meshAdapters with
  | none => { err := some OpsError.errValidAdapter, clientCalls := [], applyCalls := [] }
  | some ad =>
    match env.mk8sContexts with
    | none =>
      { err := some OpsError.errInvalidK8SConfig, clientCalls := [], applyCalls := [] }
    | some mk8s =>
      if mk8s.isEmpty then
        { err := some OpsError.errInvalidK8SConfig, clientCalls := [], applyCalls := [] }
      else
        match generateKubeConfigs mk8s with
        | Except.error e =>
          { err := some (OpsError.kubeConfigError e), clientCalls := [], applyCalls := [] }
        | Except.ok configs =>
          match env.createClient with
          | Except.error e =>
            { err := some (OpsError.meshClientError e), clientCalls := [ad.Host],
              applyCalls := [] }
          | Except.ok _ =>
            let req : ApplyRuleRequest :=
              { OperationId := env.operationId, OpName := form.query,
                Username := userID,
                Namespace := if form.Namespace == "" then "default" else form.Namespace,
                CustomBody := form.customBody,
                DeleteOp := form.deleteOp != "",
                KubeConfigs := configs }
            match env.applyResult with
            | Except.error e =>
              { err := some (OpsError.applyOperationError e), clientCalls := [ad.Host],
                applyCalls := [req] }
            | Except.ok _ =>
              { err := none, clientCalls := [ad.Host], applyCalls := [req] }

theorem findDispatchAdapter_eq_none_of (loc : String) :
    ∀ l : List Adapter, (∀ a ∈ l, loc ≠ dispatchKey a) →
      findDispatchAdapter loc l = none := by
  intro l
  induction l with
  | nil => intro _; rfl
  | cons hd tl ih =>
    intro h
    have hb : ¬((loc == dispatchKey hd) = true) := by
      simp only [beq_iff_eq]
      exact h hd (List.mem_cons_self hd tl)
    simp [findDispatchAdapter, hb, ih (fun a ha => h a (List.mem_cons_of_mem hd ha))]

theorem findTargetAdapter_host_eq (loc : String) :
    ∀ (l : List Adapter) (b : Adapter), findTargetAdapter loc l = some b →
      b.Host = loc := by
  intro l
  induction l with
  | nil => intro b h; simp [findTargetAdapter] at h
  | cons hd tl ih =>
    intro b h
    by_cases hb : (loc == hd.Host) = true
    · simp [findTargetAdapter, hb] at h
      subst h
      exact (beq_iff_eq.mp hb).symm
    · simp [findTargetAdapter, hb] at h
      exact ih b h

/-- C5: dispatch resolves by exact match against `Host` combined with `Port`
(the ping path, by contrast, finds only entries whose `Host` alone equals its
key); when no entry's combined key equals the form value, dispatch reports
`ErrValidAdapter`, creates no RPC client and issues no `ApplyOperation`. -/
theorem meshOps_no_match_no_call (env : DispatchEnv) (l : List Adapter)
    (form : OpsForm) (u : String)
    (h : ∀ a ∈ l, form.adapter ≠ dispatchKey a) :
    (MeshOpsHandler env l form u).err = some OpsError.errValidAdapter ∧
    (MeshOpsHandler env l form u).clientCalls = [] ∧
    (MeshOpsHandler env l form u).applyCalls = [] ∧
    (∀ (loc : String) (l2 : List Adapter) (b : Adapter),
      findTargetAdapter loc l2 = some b → b.Host = loc) := by
  have hf := findDispatchAdapter_eq_none_of form.adapter l h
  refine ⟨?_, ?_, ?_, fun loc l2 b hb => findTargetAdapter_host_eq loc l2 b hb⟩ <;>
    simp [MeshOpsHandler, hf]

/-- Environment for dispatch witnesses in which every external call succeeds
and one cluster context generates the config "kubeconfig-1". -/
def sampleEnvOk : DispatchEnv :=
  { mk8sContexts := some [Except.ok "kubeconfig-1"],
    createClient := Except.ok (),
    operationId := "op-42",
    applyResult := Except.ok () }

theorem meshOps_no_match_no_call_witness :
    (MeshOpsHandler sampleEnvOk [sampleAdapterA]
        { adapter := "http://istio:10000", query := "install", customBody := "",
          Namespace := "", deleteOp := "" } "user-1").err
      = some OpsError.errValidAdapter ∧
    (MeshOpsHandler sampleEnvOk [sampleAdapterA]
        { adapter := "http://istio:10000", query := "install", customBody := "",
          Namespace := "", deleteOp := "" } "user-1").clientCalls = [] ∧
    (MeshOpsHandler sampleEnvOk [sampleAdapterA]
        { adapter := "http://istio:10000", query := "install", customBody := "",
          Namespace := "", deleteOp := "" } "user-1").applyCalls = [] ∧
    (∀ (loc : String) (l2 : List Adapter) (b : Adapter),
      findTargetAdapter loc l2 = some b → b.Host = loc) :=
  meshOps_no_match_no_call sampleEnvOk [sampleAdapterA]
    { adapter := "http://istio:10000", query := "install", customBody := "",
      Namespace := "", deleteOp := "" } "user-1" (by decide)

theorem generateKubeConfigs_first_error :
    ∀ (pre post : List (Except String String)) (e : String),
      (∀ x ∈ pre, ∃ k, x = Except.ok k) →
      generateKubeConfigs (pre ++ Except.error e :: post) = Except.error e := by
  intro pre
  induction pre with
  | nil => intro post e _; rfl
  | cons c cs ih =>
    intro post e h
    obtain ⟨k, hk⟩ := h c (List.mem_cons_self c cs)
    subst hk
    have htl := ih post e (fun x hx => h x (List.mem_cons_of_mem _ hx))
    simp only [List.cons_append, generateKubeConfigs, List.append_eq, htl]

/-- C6: credential assembly is all-or-nothing before the remote call.  When
the cluster context list is absent or empty, or any context's kube-config
generation fails, no RPC client is created and no `ApplyOperation` is issued;
with an adapter match the reported error is `ErrInvalidK8SConfig` in the
empty case and the generation error in the failing case, and
`generateKubeConfigs` surfaces exactly the first generation error
encountered. -/
theorem meshOps_credential_assembly_all_or_nothing (env : DispatchEnv)
    (l : List Adapter) (form : OpsForm) (u : String)
    (h : env.mk8sContexts = none ∨ env.mk8sContexts = some [] ∨
         ∃ cs e, env.mk8sContexts = some cs ∧
           generateKubeConfigs cs = Except.error e) :
    (MeshOpsHandler env l form u).clientCalls = [] ∧
    (MeshOpsHandler env l form u).applyCalls = [] ∧
    ((env.mk8sContexts = none ∨ env.mk8sContexts = some []) →
      findDispatchAdapter form.adapter l ≠ none →
      (MeshOpsHandler env l form u).err = some OpsError.errInvalidK8SConfig) ∧
    (∀ cs e, env.mk8sContexts = some cs → generateKubeConfigs cs = Except.error e →
      findDispatchAdapter form.adapter l ≠ none →
      (MeshOpsHandler env l form u).err = some (OpsError.kubeConfigError e)) ∧
    (∀ (pre post : List (Except String String)) (e : String),
      (∀ x ∈ pre, ∃ k, x = Except.ok k) →
      generateKubeConfigs (pre ++ Except.error e :: post) = Except.error e) := by
  cases hf : findDispatchAdapter form.adapter l with
  | none =>
    refine ⟨by simp [MeshOpsHandler, hf], by simp [MeshOpsHandler, hf], ?_, ?_,
      generateKubeConfigs_first_error⟩
    · intro _ hne; exact absurd rfl hne
    · intro cs e _ _ hne; exact absurd rfl hne
  | some ad =>
    rcases h with hnone | hempty | ⟨cs, e, hcs, hgen⟩
    · refine ⟨by simp [MeshOpsHandler, hf, hnone], by simp [MeshOpsHandler, hf, hnone],
        ?_, ?_, generateKubeConfigs_first_error⟩
      · intro _ _; simp [MeshOpsHandler, hf, hnone]
      · intro cs e hcs _ _; rw [hnone] at hcs; cases hcs
    · refine ⟨by simp [MeshOpsHandler, hf, hempty], by simp [MeshOpsHandler, hf, hempty],
        ?_, ?_, generateKubeConfigs_first_error⟩
      · intro _ _; simp [MeshOpsHandler, hf, hempty]
      · intro cs e hcs hgenerr _
        rw [hempty] at hcs
        injection hcs with hcs
        subst hcs
        simp [generateKubeConfigs] at hgenerr
    · have hne : cs.isEmpty = false := by
        cases cs with
        | nil => simp [generateKubeConfigs] at hgen
        | cons c rest => rfl
      refine ⟨by simp [MeshOpsHandler, hf, hcs, hne, hgen],
        by simp [MeshOpsHandler, hf, hcs, hne, hgen], ?_, ?_,
        generateKubeConfigs_first_error⟩
      · intro hco _
        rcases hco with h1 | h1 <;> rw [hcs] at h1
        · cases h1
        · injection h1 with h1
          subst h1
          simp [generateKubeConfigs] at hgen
      · intro cs2 e2 hcs2 hgen2 _
        rw [hcs] at hcs2
        injection hcs2 with hcs2
        subst hcs2
        rw [hgen] at hgen2
        injection hgen2 with he
        subst he
        simp [MeshOpsHandler, hf, hcs, hne, hgen]

/-- Environment in which the request context carries an empty cluster context
list. -/
def sampleEnvNoCtx : DispatchEnv :=
  { mk8sContexts := some [], createClient := Except.ok (),
    operationId := "op-43", applyResult := Except.ok () }

/-- Form whose adapter value is the `Host` combined with `Port` of
`sampleAdapterA` and whose `deleteOp` value is the non-empty string "false". -/
def sampleFormDispatch : OpsForm :=
  { adapter := "http://istio:10000:10000", query := "install", customBody := "",
    Namespace := "", deleteOp := "false" }

theorem meshOps_credential_assembly_witness :
    (MeshOpsHandler sampleEnvNoCtx [sampleAdapterA] sampleFormDispatch "user-1").clientCalls
        = [] ∧
    (MeshOpsHandler sampleEnvNoCtx [sampleAdapterA] sampleFormDispatch "user-1").applyCalls
        = [] ∧
    (MeshOpsHandler sampleEnvNoCtx [sampleAdapterA] sampleFormDispatch "user-1").err
        = some OpsError.errInvalidK8SConfig := by
  have h := meshOps_credential_assembly_all_or_nothing sampleEnvNoCtx [sampleAdapterA]
    sampleFormDispatch "user-1" (Or.inr (Or.inl rfl))
  exact ⟨h.1, h.2.1, h.2.2.1 (Or.inr rfl) (by decide)⟩

/-- C10: every `ApplyOperation` request a dispatch issues has `DeleteOp = true`
exactly when the `deleteOp` form value is a non-empty string. -/
theorem meshOps_deleteOp_flag (env : DispatchEnv) (l : List Adapter) (form : OpsForm)
    (u : String) (req : ApplyRuleRequest)
    (h : req ∈ (MeshOpsHandler env l form u).applyCalls) :
    (req.DeleteOp = true ↔ form.deleteOp ≠ "") := by
  simp only [MeshOpsHandler] at h
  split at h
  · simp at h
  · split at h
    · simp at h
    · split at h
      · simp at h
      · split at h
        · simp at h
        · split at h
          · simp at h
          · split at h
            · simp at h
              subst h
              simp
            · simp at h
              subst h
              simp

/-- The request the success-path dispatch witness is expected to issue. -/
def sampleDispatchReq : ApplyRuleRequest :=
  { OperationId := "op-42", OpName := "install", Username := "user-1",
    Namespace := "default", CustomBody := "", DeleteOp := true,
    KubeConfigs := ["kubeconfig-1"] }

theorem meshOps_deleteOp_flag_witness :
    sampleDispatchReq.DeleteOp = true ∧ sampleFormDispatch.deleteOp = "false" := by
  have h := meshOps_deleteOp_flag sampleEnvOk [sampleAdapterA] sampleFormDispatch
    "user-1" sampleDispatchReq (by decide)
  exact ⟨h.mpr (by decide), rfl⟩

/-- Model of `meshsyncmodel.Object`, the generic decoded record the ingestion
loop persists; its payload is opaque to this core. -/
structure MeshSyncObject where
  payload : String
deriving Repr, DecidableEq

/-- Model of a `broker.Message` as seen by `listernToEvents`: the
marshal/unmarshal round-trip of `msg.Object` is modelled by the decode outcome
it would produce (`Except.error` for a malformed payload). -/
structure BrokerMessage where
  decode : Except String MeshSyncObject
deriving Repr

/-- The decoded object of a message, when decoding succeeds. -/
def decodeOk (m : BrokerMessage) : Option MeshSyncObject :=
  match m.decode with
  | Except.ok o => some o
  | Except.error _ => none

/-- Embedding of `recordMeshSyncData`: call the database handler's `Create`
(modelled by `createErr`, the error its `Create` call would report for the
object); on success the record is appended to the persisted store, on failure
the error is returned and nothing is appended. -/
def recordMeshSyncData (createErr : MeshSyncObject → Option String)
    (db : List MeshSyncObject) (object : MeshSyncObject) :
    List MeshSyncObject × Option String :=
  match createErr object with
  | some e => (db, some e)
  | none => (db ++ [object], none)

/-- Embedding of `listernToEvents`: drain the broker channel one message at a
time; decode each payload (returning the decode error on failure, which exits
the loop), persist it via `recordMeshSyncData` (returning the persistence
error on failure), and continue with the next message.  The channel is
modelled by the finite sequence of messages it delivers; an exhausted
sequence leaves the loop blocked without error. -/
def listernToEvents (createErr : MeshSyncObject → Option String)
    (db : List MeshSyncObject) :
    List BrokerMessage → List MeshSyncObject × Option String
  | [] => (db, none)
  | msg :: rest =>
    match msg.decode with
    | Except.error e => (db, some e)
    | Except.ok object =>
      match recordMeshSyncData createErr db object with
      | (db2, some e) => (db2, some e)
      | (db2, none) => listernToEvents createErr db2 rest

/-- The failure a message produces in the loop, if any: its decode error, or
otherwise the error of persisting its decoded object. -/
def msgFailure (createErr : MeshSyncObject → Option String)
    (m : BrokerMessage) : Option String :=
  match m.decode with
  | Except.error e => some e
  | Except.ok o => createErr o

theorem listernToEvents_ok_all (createErr : MeshSyncObject → Option String) :
    ∀ (msgs : List BrokerMessage) (db : List MeshSyncObject),
      (∀ m ∈ msgs, msgFailure createErr m = none) →
      listernToEvents createErr db msgs = (db ++ msgs.filterMap decodeOk, none) := by
  intro msgs
  induction msgs with
  | nil => intro db _; simp [listernToEvents]
  | cons m rest ih =>
    intro db h
    have hm := h m (List.mem_cons_self m rest)
    cases hd : m.decode with
    | error e => simp [msgFailure, hd] at hm
    | ok o =>
      simp only [msgFailure, hd] at hm
      have hrec : recordMeshSyncData createErr db o = (db ++ [o], none) := by
        simp only [recordMeshSyncData, hm]
      have htl := ih (db ++ [o]) (fun x hx => h x (List.mem_cons_of_mem _ hx))
      simp only [listernToEvents, hd, hrec, List.append_eq]
      rw [htl]
      simp [List.filterMap_cons, decodeOk, hd, List.append_assoc]

theorem listernToEvents_halts_at_failure (createErr : MeshSyncObject → Option String)
    (e : String) :
    ∀ (good : List BrokerMessage) (bad : BrokerMessage) (rest : List BrokerMessage)
      (db : List MeshSyncObject),
      (∀ m ∈ good, msgFailure createErr m = none) →
      msgFailure createErr bad = some e →
      listernToEvents createErr db (good ++ bad :: rest)
        = (db ++ good.filterMap decodeOk, some e) := by
  intro good
  induction good with
  | nil =>
    intro bad rest db _ hbad
    cases hd : bad.decode with
    | error e2 =>
      simp only [msgFailure, hd] at hbad
      injection hbad with hbad
      subst hbad
      simp [listernToEvents, hd]
    | ok o =>
      simp only [msgFailure, hd] at hbad
      have hrec : recordMeshSyncData createErr db o = (db, some e) := by
        simp only [recordMeshSyncData, hbad]
      simp [listernToEvents, hd, hrec]
  | cons m g ih =>
    intro bad rest db hgood hbad
    have hm := hgood m (List.mem_cons_self m g)
    cases hd : m.decode with
    | error e2 => simp [msgFailure, hd] at hm
    | ok o =>
      simp only [msgFailure, hd] at hm
      have hrec : recordMeshSyncData createErr db o = (db ++ [o], none) := by
        simp only [recordMeshSyncData, hm]
      have htl := ih bad rest (db ++ [o]) (fun x hx => hgood x (List.mem_cons_of_mem _ hx)) hbad
      simp only [List.cons_append, listernToEvents, hd, hrec, List.append_eq]
      rw [htl]
      simp [List.filterMap_cons, decodeOk, hd, List.append_assoc]

/-- C7: a single ingestion failure is fatal.  If every message of `good`
decodes and persists cleanly and `bad` fails (malformed payload or failed
persistence, with failure `e`), then the loop run on `good ++ bad :: rest`
persists exactly the records of `good`, terminates with error `e`, and its
outcome is identical whatever `rest` holds — no message after the failure is
processed. -/
theorem ingestion_first_failure_fatal (createErr : MeshSyncObject → Option String)
    (db : List MeshSyncObject) (good : List BrokerMessage) (bad : BrokerMessage)
    (rest : List BrokerMessage) (e : String)
    (hgood : ∀ m ∈ good, msgFailure createErr m = none)
    (hbad : msgFailure createErr bad = some e) :
    listernToEvents createErr db (good ++ bad :: rest)
        = (db ++ good.filterMap decodeOk, some e) ∧
    listernToEvents createErr db (good ++ bad :: rest)
        = listernToEvents createErr db (good ++ [bad]) := by
  have h1 := listernToEvents_halts_at_failure createErr e good bad rest db hgood hbad
  have h2 := listernToEvents_halts_at_failure createErr e good bad [] db hgood hbad
  exact ⟨h1, h1.trans h2.symm⟩

/-- Well-formed broker message used by the ingestion witnesses. -/
def sampleMsg1 : BrokerMessage := { decode := Except.ok { payload := "pod-1" } }

/-- Second well-formed broker message used by the ingestion witnesses. -/
def sampleMsg2 : BrokerMessage := { decode := Except.ok { payload := "svc-2" } }

/-- Malformed broker message used by the ingestion witnesses. -/
def sampleMsgBad : BrokerMessage := { decode := Except.error "malformed json" }

/-- Third well-formed broker message, delivered after the malformed one. -/
def sampleMsg3 : BrokerMessage := { decode := Except.ok { payload := "dep-3" } }

/-- Database handler whose `Create` always succeeds. -/
def createAlwaysOk : MeshSyncObject → Option String := fun _ => none

theorem ingestion_first_failure_fatal_witness :
    listernToEvents createAlwaysOk [] [sampleMsg1, sampleMsg2, sampleMsgBad, sampleMsg3]
        = ([{ payload := "pod-1" }, { payload := "svc-2" }], some "malformed json") ∧
    listernToEvents createAlwaysOk [] [sampleMsg1, sampleMsg2, sampleMsgBad, sampleMsg3]
        = listernToEvents createAlwaysOk [] [sampleMsg1, sampleMsg2, sampleMsgBad] := by
  have h := ingestion_first_failure_fatal createAlwaysOk [] [sampleMsg1, sampleMsg2]
    sampleMsgBad [sampleMsg3] "malformed json" (by decide) (by decide)
  exact ⟨by simpa using h.1, by simpa using h.2⟩

theorem filterMap_decodeOk_length (createErr : MeshSyncObject → Option String) :
    ∀ msgs : List BrokerMessage, (∀ m ∈ msgs, msgFailure createErr m = none) →
      (msgs.filterMap decodeOk).length = msgs.length := by
  intro msgs
  induction msgs with
  | nil => intro _; rfl
  | cons m rest ih =>
    intro h
    have hm := h m (List.mem_cons_self m rest)
    cases hd : m.decode with
    | error e => simp [msgFailure, hd] at hm
    | ok o =>
      have hdo : decodeOk m = some o := by simp only [decodeOk, hd]
      simp only [List.filterMap_cons, hdo, List.length_cons]
      exact congrArg (fun n => n + 1) (ih (fun x hx => h x (List.mem_cons_of_mem _ hx)))

/-- C8: for a sequence of well-formed messages whose persistence succeeds, the
loop persists exactly one record per message, appended in arrival order, and
reports no error. -/
theorem ingestion_in_order (createErr : MeshSyncObject → Option String)
    (db : List MeshSyncObject) (msgs : List BrokerMessage)
    (h : ∀ m ∈ msgs, msgFailure createErr m = none) :
    listernToEvents createErr db msgs = (db ++ msgs.filterMap decodeOk, none) ∧
    (listernToEvents createErr db msgs).fst.length = db.length + msgs.length := by
  have h1 := listernToEvents_ok_all createErr msgs db h
  have hlen := filterMap_decodeOk_length createErr msgs h
  refine ⟨h1, ?_⟩
  rw [h1]
  simp [hlen]

theorem ingestion_in_order_witness :
    listernToEvents createAlwaysOk [] [sampleMsg1, sampleMsg2, sampleMsg3]
        = ([{ payload := "pod-1" }, { payload := "svc-2" }, { payload := "dep-3" }], none) ∧
    (listernToEvents createAlwaysOk [] [sampleMsg1, sampleMsg2, sampleMsg3]).fst.length
        = 3 := by
  have h := ingestion_in_order createAlwaysOk [] [sampleMsg1, sampleMsg2, sampleMsg3]
    (by decide)
  exact ⟨by simpa using h.1, by simpa using h.2⟩

/-- Modelled from the spec: the `ControllerStatus` enum of
`model.OperatorControllerStatus` (the `model` package is outside the handler
source); the spec lists unknown/running/degraded/error, with
`model.StatusUnknown` the value the streaming path uses. -/
inductive ControllerStatusVal where
  | unknown
  | running
  | degraded
  | errored
deriving Repr, DecidableEq

/-- Modelled from the spec: the `Error{Code, Description}` detail attached to
a controller status. -/
structure ModelError where
  Code : String
  Description : String
deriving Repr, DecidableEq

/-- Modelled from the spec: `model.OperatorControllerStatus` with `Name`,
`Status` and optional error detail. -/
structure OperatorControllerStatus where
  Name : String
  Status : ControllerStatusVal
  Err : Option ModelError
deriving Repr, DecidableEq

/-- The resolver state `getMeshSyncStatus` receives: the persisted meshsync
records and the pending broker messages (the pipeline state the status query
could in principle inspect, but does not). -/
structure Resolver where
  dbRecords : List MeshSyncObject
  meshsyncChannel : List BrokerMessage
deriving Repr

/-- Embedding of `Resolver.getMeshSyncStatus`: the source body is
`return nil, nil`, i.e. no status object and no error, whatever the resolver
state. -/
def getMeshSyncStatus (_ : Resolver) : Option OperatorControllerStatus × Option String :=
  (none, none)

/-- C9 counterexample: at a concrete resolver state the point-in-time status
query returns no status object at all (`nil`), not a status object carrying
the value "unknown"; in particular its result differs from the
unknown-status object the streaming path builds. -/
theorem getMeshSyncStatus_returns_nil_not_unknown :
    (getMeshSyncStatus { dbRecords := [], meshsyncChannel := [] }).fst = none ∧
    (getMeshSyncStatus { dbRecords := [], meshsyncChannel := [] }).fst ≠
      some { Name := "meshsync", Status := ControllerStatusVal.unknown, Err := none } := by
  exact ⟨rfl, by simp [getMeshSyncStatus]⟩

/-- C9 amended: the point-in-time status query unconditionally returns a nil
status and a nil error — no status object, not even one marked "unknown" —
performing no health computation and ignoring the pipeline state entirely. -/
theorem getMeshSyncStatus_stub (r : Resolver) :
    getMeshSyncStatus r = (none, none) := rfl

end Meshery
